import Mathlib

/-
Shallow embedding of saharaclient/osc/v1/clusters.py (python-saharaclient).

The repository is a thin CLI layer: each command class has a take_action
method that validates flags, optionally loads a JSON file, resolves
name-or-ID references through lookup collaborators, performs one REST
client call, optionally polls for completion, and reshapes the returned
record for display.

Modelling choices:
  - JSON documents and python dicts are Jval / assoc lists of (String, Jval)
    with python dict semantics: assignment to an existing key keeps its
    position, a new key is appended at the end.
  - External collaborators (the REST client, the lookup helpers of
    saharaclient.osc.v1.utils, the polling helpers, file reading, the
    openstackclient format_list helper) are fields of an Env record: the
    embedding is parametric in their behaviour.
  - Every external call made by a take_action is recorded in a Trace, in
    program order, so that claims about which calls happen (and in which
    order, and before which errors) are statable.
  - Python exceptions are an Exc sum: CommandError with its message,
    KeyError with the missing key, TypeError, ValueError.  A take_action
    returns the trace of calls made together with Except Exc of its
    display data.
-/

set_option autoImplicit false

namespace Sahara

/-- Python / JSON values as used by the command layer. -/
inductive Jval where
  | null : Jval
  | bool : Bool → Jval
  | num : Int → Jval
  | str : String → Jval
  | arr : List Jval → Jval
  | obj : List (String × Jval) → Jval
deriving Repr

/-- Python str() rendering, as used by percent-s formatting in the log and
error messages.  Scalar cases match python exactly; container cases render
elements with str rather than repr, which is close enough because the
commands only ever format scalar values. -/
def pyStr : Jval → String
  | .null => "None"
  | .bool true => "True"
  | .bool false => "False"
  | .num n => toString n
  | .str s => s
  | .arr l => "[" ++ String.intercalate ", " (pyStrList l) ++ "]"
  | .obj l => "\x7b" ++ String.intercalate ", " (pyStrObj l) ++ "\x7d"
where
  pyStrList : List Jval → List String
    | [] => []
    | v :: vs => pyStr v :: pyStrList vs
  pyStrObj : List (String × Jval) → List String
    | [] => []
    | (k, v) :: vs => (k ++ ": " ++ pyStr v) :: pyStrObj vs

/-- A python dict with Jval values: an assoc list in insertion order. -/
abbrev Dict := List (String × Jval)

section AssocOps

variable {α : Type}

/-- Dict lookup: d[k] when present. -/
def aget (d : List (String × α)) (k : String) : Option α :=
  match d with
  | [] => none
  | (k', v) :: rest => if k' = k then some v else aget rest k

/-- Python: k in d. -/
def acontains (d : List (String × α)) (k : String) : Bool :=
  match d with
  | [] => false
  | (k', _) :: rest => k' = k || acontains rest k

/-- Removing a key (the mutation part of d.pop(k)).  A python dict has
unique keys, so removing every entry with the key is the same as removing
its single entry. -/
def aremove (d : List (String × α)) (k : String) : List (String × α) :=
  match d with
  | [] => []
  | (k', v) :: rest => if k' = k then aremove rest k else (k', v) :: aremove rest k

/-- Python dict assignment d[k] = v: an existing key keeps its position and
gets the new value, a new key is appended at the end. -/
def aset (d : List (String × α)) (k : String) (v : α) : List (String × α) :=
  match d with
  | [] => [(k, v)]
  | (k', v') :: rest => if k' = k then (k, v) :: rest else (k', v') :: aset rest k v

end AssocOps

/-- Python exceptions reaching or raised by the command layer. -/
inductive Exc where
  | commandError : String → Exc
  | keyError : String → Exc
  | typeError : Exc
  | valueError : Exc
deriving Repr, DecidableEq

/-- One external call made by a command, as recorded in the trace.
lookup is a name-or-ID resolution through the lookup collaborators
(utils.get_resource / utils.get_resource_id), tagged with the collection
name; waitStatus / waitDelete are the delegated polling helpers; logError
is an error-level log line with its formatted message. -/
inductive Call where
  | createClusters : Dict → Call
  | deleteCluster : String → Call
  | updateCluster : String → Dict → Call
  | scaleCluster : String → Jval → Call
  | listClusters : Dict → Call
  | getCluster : Jval → Call
  | lookup : String → Jval → Call
  | networkFind : String → Call
  | waitStatus : Jval → Call
  | waitDelete : String → Call
  | logError : String → Call
deriving Repr

/-- The trace of external calls, in program order. -/
abbrev Trace := List Call

/-- Cluster template resource, as returned by the lookup collaborator for
client.cluster_templates and used through its attributes. -/
structure CT where
  plugin_name : String
  hadoop_version : String
  id : String

/-- Node group template resource, used through name and id. -/
structure NGT where
  id : String
  name : String

/-- One node group inside a cluster resource. -/
structure NodeGroup where
  name : String
  count : Int

/-- Cluster resource, as returned by the lookup collaborator for
client.clusters: the attributes the commands use, and to_dict as dict. -/
structure ClusterRes where
  id : String
  name : String
  node_groups : List NodeGroup
  dict : Dict

/-- The external collaborators: the REST client methods, the lookup
helpers of saharaclient.osc.v1.utils, polling, file reading, formatting.
They are outside this repository (or outside src/), so the embedding is
parametric in their behaviour; the trace records how they are called. -/
structure Env where
  /-- osc_utils.read_blob_file_contents -/
  readFile : String → String
  /-- json.loads: an error value carries the textual ValueError message. -/
  jsonLoads : String → Except String Jval
  /-- utils.get_resource on client.cluster_templates. -/
  ctLookup : String → CT
  /-- utils.get_resource_id on client.images. -/
  imageId : String → String
  /-- network_client.api.find_attr for networks, projected on id. -/
  networkId : String → String
  /-- utils.get_resource_id on client.clusters. -/
  clusterIdOf : String → String
  /-- utils.get_resource on client.clusters. -/
  clusterOf : Jval → ClusterRes
  /-- utils.get_resource on client.node_group_templates. -/
  ngtOf : String → NGT
  /-- client.clusters.create(kwargs).to_dict() -/
  createResp : Dict → Dict
  /-- client.clusters.get(id).to_dict() -/
  getResp : Jval → Dict
  /-- client.clusters.update(id, kwargs).cluster -/
  updateResp : String → Dict → Dict
  /-- client.clusters.scale(id, obj).to_dict() (JSON branch) -/
  scaleRespToDict : String → Jval → Dict
  /-- client.clusters.scale(id, obj).cluster (flags branch) -/
  scaleRespCluster : String → Jval → Dict
  /-- client.clusters.list(search_opts) -/
  listResp : Dict → List ClusterRes
  /-- Modelled from the spec: utils.get_by_name_substring of
  saharaclient.osc.v1.utils is not under src/; per the source help text it
  keeps the clusters whose name contains the given substring.  It is kept
  abstract as a filtering collaborator on the fetched list. -/
  nameFilter : String → List ClusterRes → List ClusterRes
  /-- osc_utils.wait_for_status(client.clusters.get, id): True on success. -/
  waitStatus : Jval → Bool
  /-- utils.wait_for_delete(client.clusters, id): True on success. -/
  waitDelete : String → Bool
  /-- osc_utils.format_list -/
  fmtList : List String → String

/-- Python truthiness of an optional string flag (argparse gives None when
the flag is absent; an empty string is also falsy). -/
def strTruthy : Option String → Bool
  | none => false
  | some s => s ≠ ""

/-- None or a string, as a Jval keyword argument value. -/
def optStr : Option String → Jval
  | none => .null
  | some s => .str s

/-- None or an int, as a Jval keyword argument value. -/
def optInt : Option Int → Jval
  | none => .null
  | some n => .num n

/-- None or a bool, as a Jval keyword argument value. -/
def optBool : Option Bool → Jval
  | none => .null
  | some b => .bool b

/-- d[k] with KeyError on a missing key. -/
def jindex (d : Dict) (k : String) : Except Exc Jval :=
  match aget d k with
  | some v => .ok v
  | none => .error (.keyError k)

/-- Python truthiness of a Jval. -/
def truthy : Jval → Bool
  | .null => false
  | .bool b => b
  | .num n => n ≠ 0
  | .str s => s ≠ ""
  | .arr l => !l.isEmpty
  | .obj l => !l.isEmpty

/-- Python comparison v > 1 as used on the count: ints compare, bools are
ints (both False and True are at most 1), anything else is a TypeError. -/
def jgtOne : Jval → Except Exc Bool
  | .num n => .ok (1 < n)
  | .bool _ => .ok false
  | _ => .error .typeError

/-- The branch condition parsed_args.count and parsed_args.count > 1,
with python short-circuit evaluation. -/
def countCond (c : Jval) : Except Exc Bool :=
  if truthy c then jgtOne c else .ok false

/-- The CommandError message for an unreadable JSON template, naming the
file; e is the textual ValueError from json.loads. -/
def badJsonMsg (f e : String) : String :=
  "An error occurred when reading template from file " ++ f ++ ": " ++ e

/-- The CommandError message for missing required creation flags. -/
def missingArgsMsg : String :=
  "At least --name , --cluster-template, --image arguments should be " ++
  "specified or json template should be provided with --json argument"

/-- The per-element body of _format_node_groups_list: each node group dict
is rendered as name:count; a missing key is a KeyError, a non-dict element
a TypeError. -/
def fmtNgParts : List Jval → Except Exc (List String)
  | [] => .ok []
  | .obj o :: rest => do
      let n ← match aget o "name" with
        | some v => Except.ok v
        | none => Except.error (Exc.keyError "name")
      let c ← match aget o "count" with
        | some v => Except.ok v
        | none => Except.error (Exc.keyError "count")
      let tail ← fmtNgParts rest
      pure ((pyStr n ++ ":" ++ pyStr c) :: tail)
  | _ :: _ => .error .typeError

/-- Source _format_node_groups_list: comma-separated name:count pairs in
list order. -/
def _format_node_groups_list (ngs : List Jval) : Except Exc String :=
  (fmtNgParts ngs).map (String.intercalate ", ")

/-- A JSON array of strings, as required by osc_utils.format_list. -/
def strElems : List Jval → Except Exc (List String)
  | [] => .ok []
  | .str s :: rest => (strElems rest).map (s :: ·)
  | _ :: _ => .error .typeError

/-- Coerces the anti_affinity value for osc_utils.format_list. -/
def asStrList : Jval → Except Exc (List String)
  | .arr l => strElems l
  | _ => .error .typeError

/-- Source _format_cluster_output: rename hadoop_version to version and
default_image_id to image (python pop then assignment), replace the
node_groups list by its name:count rendering, format anti_affinity with
the external format_list helper. -/
def _format_cluster_output (fl : List String → String) (d0 : Dict) : Except Exc Dict :=
  match jindex d0 "hadoop_version" with
  | .error e => .error e
  | .ok hv =>
      let d1 := aset (aremove d0 "hadoop_version") "version" hv
      match jindex d1 "default_image_id" with
      | .error e => .error e
      | .ok di =>
          let d2 := aset (aremove d1 "default_image_id") "image" di
          match jindex d2 "node_groups" with
          | .error e => .error e
          | .ok (.arr ngl) =>
              match _format_node_groups_list ngl with
              | .error e => .error e
              | .ok s =>
                  let d3 := aset d2 "node_groups" (.str s)
                  match jindex d3 "anti_affinity" with
                  | .error e => .error e
                  | .ok aav =>
                      match asStrList aav with
                      | .error e => .error e
                      | .ok strs => .ok (aset d3 "anti_affinity" (.str (fl strs)))
          | .ok _ => .error .typeError

/-- Source CLUSTER_FIELDS whitelist, in source order. -/
def CLUSTER_FIELDS : List String :=
  ["cluster_template_id", "use_autoconfig", "user_keypair_id",
   "status", "image", "node_groups", "id",
   "anti_affinity", "version", "name", "is_transient",
   "is_protected", "description", "is_public",
   "neutron_management_network", "plugin_name"]

/-- Modelled from the spec: utils.prepare_data of saharaclient.osc.v1.utils
is not under src/; the spec says each command reads a fixed whitelist of
the record fields for display, so it is modelled as restricting the record
to the given field list, in field-list order, keeping the fields present
in the record. -/
def prepare_data (d : Dict) (fields : List String) : Dict :=
  fields.filterMap (fun f => (aget d f).map (fun v => (f, v)))

/-- cliff ShowOne.dict2columns: external display conversion of the host
CLI framework, modelled as the identity on the underlying mapping. -/
def dict2columns (d : Dict) : Dict := d

/-- The shared display tail of the single-record commands:
_format_cluster_output then prepare_data on CLUSTER_FIELDS. -/
def formatPrepare (env : Env) (d : Dict) : Except Exc Dict :=
  (_format_cluster_output env.fmtList d).map
    (fun d' => dict2columns (prepare_data d' CLUSTER_FIELDS))

/-- Parsed arguments of CreateCluster (argparse gives None for an absent
optional flag; store_true flags default to False).  The --protected flag
is stored as protectedFlag because protected is a Lean keyword. -/
structure CreateArgs where
  name : Option String
  cluster_template : Option String
  image : Option String
  description : Option String
  user_keypair : Option String
  neutron_network : Option String
  count : Option Int
  public : Bool
  protectedFlag : Bool
  transient : Bool
  json : Option String
  wait : Bool

/-- template[net_id] = template.pop(neutron_management_network): remove
the old key, then assign the new one (python dict semantics). -/
def renameKey (d : Dict) (oldk newk : String) : Dict :=
  match aget d oldk with
  | some v => aset (aremove d oldk) newk v
  | none => d

/-- The keyword arguments of client.clusters.create in the flags branch,
in source order. -/
def createFlagsPayload (env : Env) (a : CreateArgs) : Dict :=
  let ct := env.ctLookup (a.cluster_template.getD "")
  [("name", optStr a.name),
   ("plugin_name", .str ct.plugin_name),
   ("hadoop_version", .str ct.hadoop_version),
   ("cluster_template_id", .str ct.id),
   ("default_image_id", .str (env.imageId (a.image.getD ""))),
   ("description", optStr a.description),
   ("is_transient", .bool a.transient),
   ("user_keypair_id", optStr a.user_keypair),
   ("net_id", if strTruthy a.neutron_network
      then .str (env.networkId (a.neutron_network.getD "")) else .null),
   ("count", optInt a.count),
   ("is_public", .bool a.public),
   ("is_protected", .bool a.protectedFlag)]

/-- The parsed JSON document after the in-place rename of its
neutron_management_network key to net_id: the full create payload of the
JSON branch, built from the document alone. -/
def jsonTemplate (t0 : Dict) : Dict :=
  if acontains t0 "neutron_management_network"
  then renameKey t0 "neutron_management_network" "net_id" else t0

/-- parsed_args.count after the count-override of the JSON branch: the
count key of the document when present, the count flag otherwise. -/
def jsonEffCount (t : Dict) (a : CreateArgs) : Jval :=
  match aget t "count" with
  | some v => v
  | none => optInt a.count

/-- The request phase of CreateCluster.take_action: JSON branch (read the
file, parse, rename the network key, take the count override, create) or
flags branch (validate, resolve the template and the image, create).
Returns the data dict of the create response and the effective count as
the python value held by parsed_args.count afterwards. -/
def createRequest (env : Env) (a : CreateArgs) : Trace × Except Exc (Dict × Jval) :=
  match a.json with
  | some f =>
      match env.jsonLoads (env.readFile f) with
      | .error e => ([], .error (.commandError (badJsonMsg f e)))
      | .ok (.obj t0) =>
          ([Call.createClusters (jsonTemplate t0)],
           .ok (env.createResp (jsonTemplate t0), jsonEffCount (jsonTemplate t0) a))
      | .ok _ => ([], .error .typeError)
  | none =>
      if !strTruthy a.name || !strTruthy a.cluster_template || !strTruthy a.image then
        ([], .error (.commandError missingArgsMsg))
      else
        let payload := createFlagsPayload env a
        let lookups := [Call.lookup "cluster_templates" (.str (a.cluster_template.getD "")),
                        Call.lookup "images" (.str (a.image.getD ""))]
        let lookups := lookups ++ (if strTruthy a.neutron_network
          then [Call.networkFind (a.neutron_network.getD "")] else [])
        (lookups ++ [Call.createClusters payload], .ok (env.createResp payload, optInt a.count))

/-- The wait loop of the multi-cluster create branch: on a failed wait the
source formats data[id] into the log line, so a response without an id
key raises KeyError there. -/
def waitLoopMulti (env : Env) (dataId : Option Jval) :
    List ClusterRes → Trace × Except Exc Unit
  | [] => ([], .ok ())
  | c :: rest =>
      if env.waitStatus (.str c.id) then
        let (t, r) := waitLoopMulti env dataId rest
        (Call.waitStatus (.str c.id) :: t, r)
      else
        match dataId with
        | none => ([Call.waitStatus (.str c.id)], .error (.keyError "id"))
        | some v =>
            let (t, r) := waitLoopMulti env dataId rest
            (Call.waitStatus (.str c.id) ::
              Call.logError ("Error occurred during cluster creation: " ++ pyStr v) :: t, r)

/-- The batch display data: data[cluster.name] = cluster.id over the
looked-up clusters, with python dict assignment semantics. -/
def namesToIds (clusters : List ClusterRes) : Dict :=
  clusters.foldl (fun d c => aset d c.name (Jval.str c.id)) []

/-- The post phase of CreateCluster.take_action, after the create call:
branch on the effective count, and either resolve the batch ids and build
the name-to-id mapping, or (after an optional wait and re-fetch) apply the
single-record display tail.  Returns the additional trace after the
request phase. -/
def createPost (env : Env) (a : CreateArgs) (data : Dict) (eff : Jval) :
    Trace × Except Exc Dict :=
  match countCond eff with
  | .error e => ([], .error e)
  | .ok true =>
      match jindex data "clusters" with
      | .error e => ([], .error e)
      | .ok (.arr ids) =>
          let tl := ids.map (fun i => Call.lookup "clusters" i)
          let clusters := ids.map env.clusterOf
          if a.wait then
            match waitLoopMulti env (aget data "id") clusters with
            | (tw, .error e) => (tl ++ tw, .error e)
            | (tw, .ok _) => (tl ++ tw, .ok (dict2columns (namesToIds clusters)))
          else (tl, .ok (dict2columns (namesToIds clusters)))
      | .ok _ => ([], .error .typeError)
  | .ok false =>
      if a.wait then
        match jindex data "id" with
        | .error e => ([], .error e)
        | .ok idv =>
            let tw := [Call.waitStatus idv]
            let tw := if env.waitStatus idv then tw
                      else tw ++ [Call.logError
                        ("Error occurred during cluster creation: " ++ pyStr idv)]
            (tw ++ [Call.getCluster idv], formatPrepare env (env.getResp idv))
      else ([], formatPrepare env data)

/-- CreateCluster.take_action. -/
def CreateCluster.take_action (env : Env) (a : CreateArgs) : Trace × Except Exc Dict :=
  match createRequest env a with
  | (t, .error e) => (t, .error e)
  | (t, .ok (data, eff)) =>
      let (t2, r) := createPost env a data eff
      (t ++ t2, r)

/-- Parsed arguments of ShowCluster. -/
structure ShowArgs where
  cluster : String

/-- ShowCluster.take_action: one lookup, then the display tail. -/
def ShowCluster.take_action (env : Env) (a : ShowArgs) : Trace × Except Exc Dict :=
  ([Call.lookup "clusters" (.str a.cluster)],
   formatPrepare env (env.clusterOf (.str a.cluster)).dict)

/-- Parsed arguments of DeleteCluster: one or more positional clusters. -/
structure DeleteArgs where
  clusters : List String
  wait : Bool

/-- The delete loop: per positional argument, resolve to an id and call
delete, collecting the ids for the wait phase. -/
def deletePhase (env : Env) : List String → Trace × List String
  | [] => ([], [])
  | c :: rest =>
      let cid := env.clusterIdOf c
      let (t, ids) := deletePhase env rest
      (Call.lookup "clusters" (.str c) :: Call.deleteCluster cid :: t, cid :: ids)

/-- The wait phase of DeleteCluster: a failed wait is logged. -/
def deleteWaitPhase (env : Env) : List String → Trace
  | [] => []
  | cid :: rest =>
      (Call.waitDelete cid ::
        if env.waitDelete cid then []
        else [Call.logError ("Error occurred during cluster deleting: " ++ cid)])
      ++ deleteWaitPhase env rest

/-- DeleteCluster.take_action (a cliff command.Command returns nothing). -/
def DeleteCluster.take_action (env : Env) (a : DeleteArgs) : Trace × Except Exc Unit :=
  let (t, ids) := deletePhase env a.clusters
  if a.wait then (t ++ deleteWaitPhase env ids, .ok ()) else (t, .ok ())

/-- Parsed arguments of UpdateCluster: the public/private and
protected/unprotected pairs are mutually exclusive store flags over a
shared destination defaulting to None, hence one optional Bool each. -/
structure UpdateArgs where
  cluster : String
  name : Option String
  description : Option String
  is_public : Option Bool
  is_protected : Option Bool

/-- The keyword arguments of client.clusters.update, in source order:
all four are always passed, absent flags as None. -/
def updateKwargs (a : UpdateArgs) : Dict :=
  [("name", optStr a.name),
   ("description", optStr a.description),
   ("is_public", optBool a.is_public),
   ("is_protected", optBool a.is_protected)]

/-- UpdateCluster.take_action. -/
def UpdateCluster.take_action (env : Env) (a : UpdateArgs) : Trace × Except Exc Dict :=
  let cid := env.clusterIdOf a.cluster
  ([Call.lookup "clusters" (.str a.cluster), Call.updateCluster cid (updateKwargs a)],
   formatPrepare env (env.updateResp cid (updateKwargs a)))

/-- Parsed arguments of ScaleCluster. -/
structure ScaleArgs where
  cluster : String
  node_groups : Option (List String)
  json : Option String
  wait : Bool

/-- Python split with a colon separator and maxsplit one, on the char
list of the string. -/
def breakColon : List Char → Option (List Char × List Char)
  | [] => none
  | c :: rest =>
      if c = ':' then some ([], rest)
      else (breakColon rest).map (fun p => (c :: p.1, p.2))

/-- x.split(with a colon, maxsplit 1): one or two parts. -/
def splitColon1 (s : String) : List String :=
  match breakColon s.toList with
  | none => [s]
  | some (a, b) => [String.mk a, String.mk b]

/-- Python int() on a decimal string with an optional minus sign;
None models ValueError. -/
def natOfDigitsAux : List Char → Nat → Option Nat
  | [], acc => some acc
  | c :: cs, acc =>
      if c.isDigit then natOfDigitsAux cs (acc * 10 + (c.toNat - 48)) else none

/-- The digits of a nonempty decimal numeral. -/
def natOfDigits : List Char → Option Nat
  | [] => none
  | cs => natOfDigitsAux cs 0

/-- Python int(string). -/
def pyInt (s : String) : Option Int :=
  match s.toList with
  | '-' :: ds => (natOfDigits ds).map (fun n => -(n : Int))
  | ds => (natOfDigits ds).map (fun n => (n : Int))

/-- map(lambda x: x.split(colon, 1), node_groups), consumed by dict():
an element without a colon is not a pair and raises ValueError. -/
def pairsOfSplit : List String → Except Exc (List (String × String))
  | [] => .ok []
  | s :: rest =>
      match splitColon1 s with
      | [a, b] => (pairsOfSplit rest).map (fun l => (a, b) :: l)
      | _ => .error .valueError

/-- dict(map(lambda x: x.split(colon, 1), node_groups)): the dict keeps
the first-occurrence position and the last-occurrence value per name. -/
def scaleDict (ngs : List String) : Except Exc (List (String × String)) :=
  (pairsOfSplit ngs).map (fun l => l.foldl (fun d p => aset d p.1 p.2) [])

/-- A resize_node_groups entry. -/
def mkResizeNg (n : String) (k : Int) : Dict :=
  [("name", .str n), ("count", .num k)]

/-- An add_node_groups entry. -/
def mkAddNg (tid n : String) (k : Int) : Dict :=
  [("node_group_template_id", .str tid), ("name", .str n), ("count", .num k)]

/-- The per-name loop of the flags branch of ScaleCluster: resolve the
node group template, then append to resize_node_groups when the resolved
name is an existing node group of the cluster and to add_node_groups
otherwise; int(count) raises ValueError on a non-numeral. -/
def scaleLoop (env : Env) (cng : List String) (adds resizes : List Dict) :
    List (String × String) → Trace × Except Exc (List Dict × List Dict)
  | [] => ([], .ok (adds, resizes))
  | (nm, cnt) :: rest =>
      let ng := env.ngtOf nm
      let lk := Call.lookup "node_group_templates" (Jval.str nm)
      if cng.contains ng.name then
        match pyInt cnt with
        | none => ([lk], .error .valueError)
        | some k =>
            let (t, r) := scaleLoop env cng adds (resizes ++ [mkResizeNg ng.name k]) rest
            (lk :: t, r)
      else
        match pyInt cnt with
        | none => ([lk], .error .valueError)
        | some k =>
            let (t, r) := scaleLoop env cng (adds ++ [mkAddNg ng.id ng.name k]) resizes rest
            (lk :: t, r)

/-- The scale request object: built with add_node_groups before
resize_node_groups, and an empty list is deleted from the request. -/
def scaleObj (adds resizes : List Dict) : Dict :=
  (if adds.isEmpty then [] else [("add_node_groups", Jval.arr (adds.map Jval.obj))])
  ++ (if resizes.isEmpty then [] else [("resize_node_groups", Jval.arr (resizes.map Jval.obj))])

/-- The shared tail of ScaleCluster: optional wait (the wait helper is
called on data[id], a failure is logged with cluster.id, then the record
is re-fetched), then the display tail. -/
def scaleFinish (env : Env) (a : ScaleArgs) (cluster : ClusterRes) (t : Trace)
    (data : Dict) : Trace × Except Exc Dict :=
  if a.wait then
    match jindex data "id" with
    | .error e => (t, .error e)
    | .ok idv =>
        let t := t ++ [Call.waitStatus idv]
        let t := if env.waitStatus idv then t
                 else t ++ [Call.logError
                   ("Error occurred during cluster scaling: " ++ cluster.id)]
        let t := t ++ [Call.getCluster (.str cluster.id)]
        (t, formatPrepare env (env.getResp (.str cluster.id)))
  else (t, formatPrepare env data)

/-- ScaleCluster.take_action. -/
def ScaleCluster.take_action (env : Env) (a : ScaleArgs) : Trace × Except Exc Dict :=
  let cluster := env.clusterOf (.str a.cluster)
  let t0 : Trace := [Call.lookup "clusters" (.str a.cluster)]
  match a.json with
  | some f =>
      match env.jsonLoads (env.readFile f) with
      | .error e => (t0, .error (.commandError (badJsonMsg f e)))
      | .ok tpl =>
          scaleFinish env a cluster (t0 ++ [Call.scaleCluster cluster.id tpl])
            (env.scaleRespToDict cluster.id tpl)
  | none =>
      match a.node_groups with
      | none => (t0, .error .typeError)
      | some ngs =>
          match scaleDict ngs with
          | .error e => (t0, .error e)
          | .ok pairs =>
              let cng := cluster.node_groups.map (fun ng => ng.name)
              match scaleLoop env cng [] [] pairs with
              | (tl, .error e) => (t0 ++ tl, .error e)
              | (tl, .ok (adds, resizes)) =>
                  let so := scaleObj adds resizes
                  scaleFinish env a cluster
                    (t0 ++ tl ++ [Call.scaleCluster cluster.id (Jval.obj so)])
                    (env.scaleRespCluster cluster.id (Jval.obj so))

/-- Parsed arguments of ListClusters. -/
structure ListArgs where
  long : Bool
  plugin : Option String
  version : Option String
  name : Option String

/-- ListClusters.take_action: build search_opts from the truthy flags,
one list call, optional name-substring filtering through the collaborator,
and the column selection on the long flag. -/
def ListClusters.take_action (env : Env) (a : ListArgs) :
    Trace × Except Exc (List String × List ClusterRes) :=
  let so : Dict :=
    (if strTruthy a.plugin then [("plugin_name", Jval.str (a.plugin.getD ""))] else [])
    ++ (if strTruthy a.version then [("hadoop_version", Jval.str (a.version.getD ""))] else [])
  let data := env.listResp so
  let data := if strTruthy a.name then env.nameFilter (a.name.getD "") data else data
  let columns := if a.long then
      ["name", "id", "plugin_name", "hadoop_version", "status",
       "description", "default_image_id"]
    else ["name", "id", "plugin_name", "hadoop_version", "status"]
  ([Call.listClusters so], .ok (columns, data))

/-- The acting REST calls: the one call performing the action of a
command, as opposed to lookups, polling, re-fetch reads and log lines. -/
def isActingCall : Call → Bool
  | .createClusters _ => true
  | .deleteCluster _ => true
  | .updateCluster _ _ => true
  | .scaleCluster _ _ => true
  | .listClusters _ => true
  | _ => false

/-- Number of acting calls in a trace. -/
def actingCount (t : Trace) : Nat := (t.filter isActingCall).length

/-- The payloads of the create calls of a trace, in order. -/
def createPayloadsOf : Trace → List Dict
  | [] => []
  | .createClusters p :: rest => p :: createPayloadsOf rest
  | .deleteCluster _ :: rest => createPayloadsOf rest
  | .updateCluster _ _ :: rest => createPayloadsOf rest
  | .scaleCluster _ _ :: rest => createPayloadsOf rest
  | .listClusters _ :: rest => createPayloadsOf rest
  | .getCluster _ :: rest => createPayloadsOf rest
  | .lookup _ _ :: rest => createPayloadsOf rest
  | .networkFind _ :: rest => createPayloadsOf rest
  | .waitStatus _ :: rest => createPayloadsOf rest
  | .waitDelete _ :: rest => createPayloadsOf rest
  | .logError _ :: rest => createPayloadsOf rest

/-- A node-groups flag element as a name-count pair, when it has a colon. -/
def splitPair (s : String) : Option (String × String) :=
  match splitColon1 s with
  | [a, b] => some (a, b)
  | _ => none

/-- The count of the last node-groups flag occurrence naming n, as a
reference value for the dict built by the flags branch of ScaleCluster. -/
def lastColonCount (ngs : List String) (n : String) : Option String :=
  ((ngs.reverse.filterMap splitPair).find? (fun p => p.1 = n)).map Prod.snd

/-- A full cluster record as the service returns it, used to instantiate
the universally quantified theorems at a concrete input. -/
def rec0 : Dict :=
  [("cluster_template_id", .str "ct-id-1"),
   ("use_autoconfig", .bool true),
   ("user_keypair_id", .str "kp"),
   ("status", .str "Active"),
   ("default_image_id", .str "img-1"),
   ("node_groups", .arr [.obj [("name", .str "worker"), ("count", .num 2)],
                         .obj [("name", .str "master"), ("count", .num 1)]]),
   ("id", .str "cid-1"),
   ("anti_affinity", .arr [.str "datanode"]),
   ("hadoop_version", .str "2.7.1"),
   ("name", .str "c1"),
   ("is_transient", .bool false),
   ("is_protected", .bool false),
   ("description", .str "d"),
   ("is_public", .bool false),
   ("neutron_management_network", .str "net-1"),
   ("plugin_name", .str "vanilla")]

/-- A concrete environment for witnesses: lookups answer mechanically,
json parsing fails, every record fetch returns rec0. -/
def env0 : Env where
  readFile := fun _ => "not json"
  jsonLoads := fun _ => .error "Expecting value"
  ctLookup := fun s => ⟨"vanilla", "2.7.1", s ++ "-ctid"⟩
  imageId := fun s => s ++ "-imgid"
  networkId := fun s => s ++ "-netid"
  clusterIdOf := fun s => s ++ "-id"
  clusterOf := fun v => ⟨pyStr v ++ "-id", pyStr v ++ "-nm", [⟨"worker", 2⟩], rec0⟩
  ngtOf := fun s => ⟨s ++ "-ngtid", s⟩
  createResp := fun _ => rec0
  getResp := fun _ => rec0
  updateResp := fun _ _ => rec0
  scaleRespToDict := fun _ _ => rec0
  scaleRespCluster := fun _ _ => rec0
  listResp := fun _ => []
  nameFilter := fun _ l => l
  waitStatus := fun _ => true
  waitDelete := fun _ => true
  fmtList := String.intercalate ", "

/-- env0 with a parsing json file holding a count of two, a batch create
response carrying only the clusters key, and failing waits: the concrete
scenario of the failed-wait logging in the batch branch. -/
def envMulti : Env :=
  { env0 with
    jsonLoads := fun _ => .ok (.obj [("name", .str "c"), ("count", .num 2)]),
    createResp := fun _ => [("clusters", .arr [.str "a", .str "b"])],
    waitStatus := fun _ => false }

/-- env0 with a batch create response (clusters key only) and failing
waits, for the flags-path batch scenario. -/
def envMultiFlags : Env :=
  { env0 with
    createResp := fun _ => [("clusters", .arr [.str "a", .str "b"])],
    waitStatus := fun _ => false }

/-- env0 with a parsing json document, for witnesses of the JSON branch. -/
def envJson : Env :=
  { env0 with
    jsonLoads := fun _ => .ok (.obj
      [("name", .str "c"), ("neutron_management_network", .str "net-1"),
       ("plugin_name", .str "vanilla")]) }

/-- env0 with every wait reporting failure. -/
def envWaitFail : Env :=
  { env0 with
    waitStatus := fun _ => false,
    waitDelete := fun _ => false }

/-- envJson with every wait reporting failure. -/
def envJsonWaitFail : Env :=
  { envJson with
    waitStatus := fun _ => false,
    waitDelete := fun _ => false }

/-- envMultiFlags with a batch create response that also carries an id
key, isolating the logging of the wrong id from the KeyError. -/
def envMultiId : Env :=
  { envMultiFlags with
    createResp := fun _ =>
      [("clusters", .arr [.str "a", .str "b"]), ("id", .str "z")] }

/-- rec0 after _format_cluster_output with env0: used to instantiate the
display-reshaping theorems at a concrete record. -/
def rec0Formatted : Dict :=
  [("cluster_template_id", .str "ct-id-1"), ("use_autoconfig", .bool true),
   ("user_keypair_id", .str "kp"), ("status", .str "Active"),
   ("node_groups", .str "worker:2, master:1"), ("id", .str "cid-1"),
   ("anti_affinity", .str "datanode"), ("name", .str "c1"),
   ("is_transient", .bool false), ("is_protected", .bool false),
   ("description", .str "d"), ("is_public", .bool false),
   ("neutron_management_network", .str "net-1"), ("plugin_name", .str "vanilla"),
   ("version", .str "2.7.1"), ("image", .str "img-1")]

/-- Is a trace entry an error-level log line. -/
def isLogError : Call → Bool
  | .logError _ => true
  | _ => false

/-- Did the command return normally. -/
def isOkE {ε σ : Type} : Except ε σ → Bool
  | .ok _ => true
  | .error _ => false

section AssocLemmas

variable {α : Type}

theorem aget_aset (d : List (String × α)) (k k2 : String) (v : α) :
    aget (aset d k v) k2 = if k = k2 then some v else aget d k2 := by
  induction d with
  | nil => simp [aset, aget]
  | cons kv rest ih =>
      obtain ⟨k', v'⟩ := kv
      by_cases hk : k' = k
      · subst hk
        by_cases h2 : k' = k2 <;> simp [aset, aget, h2]
      · by_cases h2 : k' = k2
        · have hkk2 : ¬ k = k2 := fun he => hk (h2.trans he.symm)
          have hk2k : ¬ k2 = k := fun he => hkk2 he.symm
          simp [aset, aget, hk, h2, hkk2, hk2k]
        · simp [aset, aget, hk, h2, ih]

theorem aget_aset_self (d : List (String × α)) (k : String) (v : α) :
    aget (aset d k v) k = some v := by
  simp [aget_aset]

theorem aget_aset_ne (d : List (String × α)) (k k2 : String) (v : α) (h : k ≠ k2) :
    aget (aset d k v) k2 = aget d k2 := by
  simp [aget_aset, h]

theorem aget_aremove_ne (d : List (String × α)) (k k2 : String) (h : k ≠ k2) :
    aget (aremove d k) k2 = aget d k2 := by
  induction d with
  | nil => rfl
  | cons kv rest ih =>
      obtain ⟨k', v'⟩ := kv
      by_cases hk : k' = k
      · subst hk
        simp [aremove, aget, h, ih]
      · have hk2k : ¬ k2 = k := fun he => h he.symm
        by_cases h2 : k' = k2 <;> simp [aremove, aget, hk, h2, ih, hk2k]

theorem acontains_iff_aget (d : List (String × α)) (k : String) :
    acontains d k = true ↔ ∃ v, aget d k = some v := by
  induction d with
  | nil => simp [acontains, aget]
  | cons kv rest ih =>
      obtain ⟨k', v'⟩ := kv
      by_cases h : k' = k <;> simp [acontains, aget, h, ih]

theorem acontains_aremove_self (d : List (String × α)) (k : String) :
    acontains (aremove d k) k = false := by
  induction d with
  | nil => rfl
  | cons kv rest ih =>
      obtain ⟨k', v'⟩ := kv
      by_cases h : k' = k <;> simp [aremove, acontains, h, ih]

theorem acontains_aremove_ne (d : List (String × α)) (k k2 : String) (h : k ≠ k2) :
    acontains (aremove d k) k2 = acontains d k2 := by
  induction d with
  | nil => rfl
  | cons kv rest ih =>
      obtain ⟨k', v'⟩ := kv
      by_cases hk : k' = k
      · subst hk
        simp [aremove, acontains, h, ih]
      · simp [aremove, acontains, hk, ih]

theorem acontains_aset_ne (d : List (String × α)) (k k2 : String) (v : α) (h : k ≠ k2) :
    acontains (aset d k v) k2 = acontains d k2 := by
  induction d with
  | nil => simp [aset, acontains, h]
  | cons kv rest ih =>
      obtain ⟨k', v'⟩ := kv
      by_cases hk : k' = k
      · subst hk
        simp [aset, acontains, ih]
      · simp [aset, acontains, hk, ih]

theorem acontains_append (d1 d2 : List (String × α)) (k : String) :
    acontains (d1 ++ d2) k = (acontains d1 k || acontains d2 k) := by
  induction d1 with
  | nil => simp [acontains]
  | cons kv rest ih =>
      obtain ⟨k', v'⟩ := kv
      by_cases h : k' = k <;> simp [acontains, h, ih]

theorem aset_of_not_contains (d : List (String × α)) (k : String) (v : α)
    (h : acontains d k = false) : aset d k v = d ++ [(k, v)] := by
  induction d with
  | nil => rfl
  | cons kv rest ih =>
      obtain ⟨k', v'⟩ := kv
      simp [acontains] at h
      simp [aset, h.1, ih h.2]

theorem prepare_data_keys (d : Dict) (fields : List String)
    (h : ∀ f ∈ fields, acontains d f = true) :
    (prepare_data d fields).map Prod.fst = fields := by
  induction fields with
  | nil => rfl
  | cons f fs ih =>
      obtain ⟨v, hv⟩ := (acontains_iff_aget d f).mp (h f (by simp))
      simpa [prepare_data, hv] using ih (fun g hg => h g (by simp [hg]))

end AssocLemmas

/-- Claim C1: argument-validation failures raise a CommandError to the
host CLI before the acting client call.  CreateCluster without a json
file and with one of the name, cluster-template or image flags absent
raises the missing-arguments CommandError with an empty call trace; a
CreateCluster or ScaleCluster json file whose contents do not parse
raises the CommandError naming the file, before any create or scale call
(the ScaleCluster trace holds only the initial cluster lookup). -/
theorem C1_validation_commanderrors :
    (∀ (env : Env) (a : CreateArgs), a.json = none →
      (a.name = none ∨ a.cluster_template = none ∨ a.image = none) →
      CreateCluster.take_action env a =
        ([], .error (.commandError missingArgsMsg)))
  ∧ (∀ (env : Env) (a : CreateArgs) (f e : String), a.json = some f →
      env.jsonLoads (env.readFile f) = .error e →
      CreateCluster.take_action env a =
        ([], .error (.commandError (badJsonMsg f e))))
  ∧ (∀ (env : Env) (a : ScaleArgs) (f e : String), a.json = some f →
      env.jsonLoads (env.readFile f) = .error e →
      ScaleCluster.take_action env a =
        ([Call.lookup "clusters" (.str a.cluster)],
         .error (.commandError (badJsonMsg f e)))) := by
  refine ⟨?_, ?_, ?_⟩
  · intro env a hj hmiss
    rcases hmiss with h | h | h <;>
      simp [CreateCluster.take_action, createRequest, hj, h, strTruthy]
  · intro env a f e hj hparse
    simp [CreateCluster.take_action, createRequest, hj, hparse]
  · intro env a f e hj hparse
    simp [ScaleCluster.take_action, hj, hparse]

/-- Witness for C1 at concrete inputs: a CreateCluster invocation with
the name flag absent, and a ScaleCluster invocation whose json file does
not parse. -/
theorem C1_validation_commanderrors_witness :
    CreateCluster.take_action env0
      ⟨none, some "tmpl", some "img", none, none, none, none,
       false, false, false, none, false⟩ =
      ([], .error (.commandError missingArgsMsg))
  ∧ ScaleCluster.take_action env0 ⟨"c", none, some "f.json", false⟩ =
      ([Call.lookup "clusters" (.str "c")],
       .error (.commandError (badJsonMsg "f.json" "Expecting value"))) :=
  ⟨C1_validation_commanderrors.1 env0 _ rfl (Or.inl rfl),
   C1_validation_commanderrors.2.2 env0 _ "f.json" "Expecting value" rfl rfl⟩

/-- Claim C10: the update client call always passes all four of name,
description, is_public and is_protected, in this order, sending None for
each flag that was not given, rather than omitting the field. -/
theorem C10_update_always_passes_four :
    ∀ (env : Env) (a : UpdateArgs),
      (UpdateCluster.take_action env a).1 =
        [Call.lookup "clusters" (.str a.cluster),
         Call.updateCluster (env.clusterIdOf a.cluster) (updateKwargs a)]
      ∧ (updateKwargs a).map Prod.fst =
          ["name", "description", "is_public", "is_protected"]
      ∧ (a.name = none → aget (updateKwargs a) "name" = some Jval.null)
      ∧ (a.description = none → aget (updateKwargs a) "description" = some Jval.null)
      ∧ (a.is_public = none → aget (updateKwargs a) "is_public" = some Jval.null)
      ∧ (a.is_protected = none → aget (updateKwargs a) "is_protected" = some Jval.null) := by
  intro env a
  refine ⟨rfl, rfl, ?_, ?_, ?_, ?_⟩ <;>
    (intro h; simp [updateKwargs, aget, h, optStr, optBool])

/-- Claim C2: poll timeouts are logged, not escalated.  The code violates
this in the batch branch of CreateCluster: there the failed-wait log line
formats data[id], and the batch create response carries its ids under the
clusters key, without an id key, so the failed wait raises KeyError(id)
instead of logging (first conjunct, evaluated at the concrete failing
input).  The remaining conjuncts show the claimed behaviour does hold at
the corresponding concrete inputs of DeleteCluster, ScaleCluster and
single-cluster CreateCluster: the failed wait is logged and the command
returns normally. -/
theorem C2_wait_failures :
    CreateCluster.take_action envMulti
      ⟨none, none, none, none, none, none, none, false, false, false,
       some "c.json", true⟩ =
      ([Call.createClusters [("name", .str "c"), ("count", .num 2)],
        Call.lookup "clusters" (.str "a"), Call.lookup "clusters" (.str "b"),
        Call.waitStatus (.str "a-id")],
       .error (.keyError "id"))
  ∧ DeleteCluster.take_action envWaitFail ⟨["c1"], true⟩ =
      ([Call.lookup "clusters" (.str "c1"), Call.deleteCluster "c1-id",
        Call.waitDelete "c1-id",
        Call.logError "Error occurred during cluster deleting: c1-id"],
       .ok ())
  ∧ (isOkE (ScaleCluster.take_action envJsonWaitFail ⟨"c", none, some "f.json", true⟩).2 = true
      ∧ (ScaleCluster.take_action envJsonWaitFail ⟨"c", none, some "f.json", true⟩).1.any
          isLogError = true)
  ∧ (isOkE (CreateCluster.take_action envWaitFail
        ⟨some "n", some "t", some "i", none, none, none, none,
         false, false, false, none, true⟩).2 = true
      ∧ (CreateCluster.take_action envWaitFail
        ⟨some "n", some "t", some "i", none, none, none, none,
         false, false, false, none, true⟩).1.any isLogError = true) :=
  ⟨rfl, rfl, ⟨rfl, rfl⟩, ⟨rfl, rfl⟩⟩

/-- Claim C8: in the batch branch of CreateCluster with wait, the
failed-wait log line reads data[id] unguarded.  First conjunct: with the
batch create response carrying only the clusters key (as the code itself
expects at the data[clusters] read), the error branch raises KeyError(id)
on that lookup, on the flags path at a concrete input.  Second conjunct:
even when the response does carry an id, the branch logs that single
response id for every failing cluster rather than the id of the failing
cluster, and returns the batch mapping. -/
theorem C8_batch_wait_log_keyerror :
    CreateCluster.take_action envMultiFlags
      ⟨some "n", some "t", some "i", none, none, none, some 2,
       false, false, false, none, true⟩ =
      ([Call.lookup "cluster_templates" (.str "t"), Call.lookup "images" (.str "i"),
        Call.createClusters (createFlagsPayload envMultiFlags
          ⟨some "n", some "t", some "i", none, none, none, some 2,
           false, false, false, none, true⟩),
        Call.lookup "clusters" (.str "a"), Call.lookup "clusters" (.str "b"),
        Call.waitStatus (.str "a-id")],
       .error (.keyError "id"))
  ∧ CreateCluster.take_action envMultiId
      ⟨some "n", some "t", some "i", none, none, none, some 2,
       false, false, false, none, true⟩ =
      ([Call.lookup "cluster_templates" (.str "t"), Call.lookup "images" (.str "i"),
        Call.createClusters (createFlagsPayload envMultiId
          ⟨some "n", some "t", some "i", none, none, none, some 2,
           false, false, false, none, true⟩),
        Call.lookup "clusters" (.str "a"), Call.lookup "clusters" (.str "b"),
        Call.waitStatus (.str "a-id"),
        Call.logError "Error occurred during cluster creation: z",
        Call.waitStatus (.str "b-id"),
        Call.logError "Error occurred during cluster creation: z"],
       .ok [("a-nm", .str "a-id"), ("b-nm", .str "b-id")]) :=
  ⟨rfl, rfl⟩

/-- Witness for C10 at a concrete invocation with no optional flag given:
the update call carries all four keyword arguments as None. -/
theorem C10_update_always_passes_four_witness :
    (UpdateCluster.take_action env0 ⟨"c", none, none, none, none⟩).1 =
      [Call.lookup "clusters" (.str "c"),
       Call.updateCluster (env0.clusterIdOf "c") (updateKwargs ⟨"c", none, none, none, none⟩)]
  ∧ aget (updateKwargs ⟨"c", none, none, none, none⟩) "is_public" = some Jval.null
  ∧ aget (updateKwargs ⟨"c", none, none, none, none⟩) "is_protected" = some Jval.null :=
  ⟨(C10_update_always_passes_four env0 _).1,
   (C10_update_always_passes_four env0 _).2.2.2.2.1 rfl,
   (C10_update_always_passes_four env0 _).2.2.2.2.2 rfl⟩

theorem createPayloadsOf_append (t1 t2 : Trace) :
    createPayloadsOf (t1 ++ t2) = createPayloadsOf t1 ++ createPayloadsOf t2 := by
  induction t1 with
  | nil => rfl
  | cons c rest ih => cases c <;> simp [createPayloadsOf, ih]

theorem createPayloadsOf_lookups (ids : List Jval) :
    createPayloadsOf (ids.map (fun i => Call.lookup "clusters" i)) = [] := by
  induction ids with
  | nil => rfl
  | cons i rest ih => simp [createPayloadsOf, ih]

theorem createPayloadsOf_waitLoopMulti (env : Env) (dataId : Option Jval)
    (l : List ClusterRes) :
    createPayloadsOf (waitLoopMulti env dataId l).1 = [] := by
  induction l with
  | nil => rfl
  | cons c rest ih =>
      cases hrec : waitLoopMulti env dataId rest with
      | mk t r =>
          have ih' : createPayloadsOf t = [] := by simpa [hrec] using ih
          by_cases hw : env.waitStatus (.str c.id)
          · simp [waitLoopMulti, hw, hrec, createPayloadsOf, ih']
          · cases dataId <;> simp [waitLoopMulti, hw, hrec, createPayloadsOf, ih']

theorem createPost_no_create (env : Env) (a : CreateArgs) (data : Dict) (eff : Jval) :
    createPayloadsOf (createPost env a data eff).1 = [] := by
  cases hc : countCond eff with
  | error e => simp [createPost, hc, createPayloadsOf]
  | ok b =>
      cases b
      · by_cases hw : a.wait
        · cases hid : jindex data "id" with
          | error e => simp [createPost, hc, hid, hw, createPayloadsOf]
          | ok idv =>
              by_cases hws : env.waitStatus idv <;>
                simp [createPost, hc, hid, hw, hws, createPayloadsOf]
        · simp [createPost, hc, hw, createPayloadsOf]
      · cases hcl : jindex data "clusters" with
        | error e => simp [createPost, hc, hcl, createPayloadsOf]
        | ok v =>
            cases v with
            | arr ids =>
                by_cases hw : a.wait
                · cases hwl : waitLoopMulti env (aget data "id") (ids.map env.clusterOf) with
                  | mk tw r =>
                      have hnw : createPayloadsOf tw = [] := by
                        simpa [hwl] using
                          createPayloadsOf_waitLoopMulti env (aget data "id")
                            (ids.map env.clusterOf)
                      cases r <;>
                        simp [createPost, hc, hcl, hw, hwl, createPayloadsOf_append,
                              createPayloadsOf_lookups, hnw]
                · simp [createPost, hc, hcl, hw, createPayloadsOf_lookups]
            | null => simp [createPost, hc, hcl, createPayloadsOf]
            | bool b2 => simp [createPost, hc, hcl, createPayloadsOf]
            | num n => simp [createPost, hc, hcl, createPayloadsOf]
            | str s => simp [createPost, hc, hcl, createPayloadsOf]
            | obj o => simp [createPost, hc, hcl, createPayloadsOf]

/-- Claim C5: with a json file, the create request payload is built solely
from the parsed JSON document, with its neutron_management_network key
renamed to net_id: the payload of the one create call of the trace is
jsonTemplate of the document, an expression in which no flag value of the
invocation occurs. -/
theorem C5_json_overrides_flags :
    ∀ (env : Env) (a : CreateArgs) (f : String) (t0 : Dict),
      a.json = some f →
      env.jsonLoads (env.readFile f) = .ok (.obj t0) →
      createPayloadsOf (CreateCluster.take_action env a).1 = [jsonTemplate t0] := by
  intro env a f t0 hj hp
  cases hpost : createPost env a (env.createResp (jsonTemplate t0))
      (jsonEffCount (jsonTemplate t0) a) with
  | mk t2 r =>
      have hta : CreateCluster.take_action env a =
          ([Call.createClusters (jsonTemplate t0)] ++ t2, r) := by
        simp [CreateCluster.take_action, createRequest, hj, hp, hpost]
      have h2 : createPayloadsOf t2 = [] := by
        simpa [hpost] using
          createPost_no_create env a (env.createResp (jsonTemplate t0))
            (jsonEffCount (jsonTemplate t0) a)
      rw [hta]
      simp [createPayloadsOf_append, createPayloadsOf, h2]

/-- Witness for C5: a concrete invocation with every flag set to a value
different from the document contents still sends exactly the renamed
document as the payload. -/
theorem C5_json_overrides_flags_witness :
    createPayloadsOf (CreateCluster.take_action envJson
      ⟨some "flagname", some "flagct", some "flagimg", some "flagdesc",
       some "flagkp", some "flagnet", some 7, true, true, true,
       some "f.json", false⟩).1 =
      [jsonTemplate [("name", .str "c"),
        ("neutron_management_network", .str "net-1"),
        ("plugin_name", .str "vanilla")]] :=
  C5_json_overrides_flags envJson _ "f.json" _ rfl rfl

theorem deletePhase_spec (env : Env) (cs : List String) :
    deletePhase env cs =
      ((cs.map (fun c => [Call.lookup "clusters" (.str c),
          Call.deleteCluster (env.clusterIdOf c)])).flatten,
       cs.map env.clusterIdOf) := by
  induction cs with
  | nil => rfl
  | cons c rest ih => simp [deletePhase, ih]

/-- Claim C6: name-or-ID references are resolved through the lookup
collaborator before the acting client call.  DeleteCluster resolves each
positional argument and deletes that id, once per argument in argument
order; CreateCluster without json resolves the cluster template (whose
plugin name, version and id enter the payload) and the image before the
create call; UpdateCluster and ScaleCluster resolve their cluster
argument before the update and scale calls. -/
theorem C6_lookup_then_act :
    (∀ (env : Env) (cs : List String),
      DeleteCluster.take_action env ⟨cs, false⟩ =
        ((cs.map (fun c => [Call.lookup "clusters" (.str c),
            Call.deleteCluster (env.clusterIdOf c)])).flatten, .ok ()))
  ∧ (∀ (env : Env) (a : CreateArgs) (nm ct im : String),
      a.json = none → a.name = some nm → nm ≠ "" →
      a.cluster_template = some ct → ct ≠ "" → a.image = some im → im ≠ "" →
      a.neutron_network = none → a.count = none → a.wait = false →
      (CreateCluster.take_action env a).1 =
        [Call.lookup "cluster_templates" (.str ct), Call.lookup "images" (.str im),
         Call.createClusters (createFlagsPayload env a)]
      ∧ aget (createFlagsPayload env a) "plugin_name" =
          some (.str (env.ctLookup ct).plugin_name)
      ∧ aget (createFlagsPayload env a) "hadoop_version" =
          some (.str (env.ctLookup ct).hadoop_version)
      ∧ aget (createFlagsPayload env a) "cluster_template_id" =
          some (.str (env.ctLookup ct).id)
      ∧ aget (createFlagsPayload env a) "default_image_id" =
          some (.str (env.imageId im)))
  ∧ (∀ (env : Env) (a : UpdateArgs),
      (UpdateCluster.take_action env a).1 =
        [Call.lookup "clusters" (.str a.cluster),
         Call.updateCluster (env.clusterIdOf a.cluster) (updateKwargs a)])
  ∧ (∀ (env : Env) (a : ScaleArgs) (f : String) (tpl : Jval),
      a.json = some f → env.jsonLoads (env.readFile f) = .ok tpl → a.wait = false →
      (ScaleCluster.take_action env a).1 =
        [Call.lookup "clusters" (.str a.cluster),
         Call.scaleCluster (env.clusterOf (.str a.cluster)).id tpl]) := by
  refine ⟨?_, ?_, ?_, ?_⟩
  · intro env cs
    simp [DeleteCluster.take_action, deletePhase_spec]
  · intro env a nm ct im hj hn hn0 hc hc0 hi hi0 hnet hcount hwait
    have hpost : createPost env a (env.createResp (createFlagsPayload env a))
        (optInt a.count) = ([], formatPrepare env
          (env.createResp (createFlagsPayload env a))) := by
      simp [createPost, countCond, truthy, hcount, hwait, optInt]
    refine ⟨?_, ?_, ?_, ?_, ?_⟩
    · simp [CreateCluster.take_action, createRequest, hj, hn, hc, hi,
            strTruthy, hn0, hc0, hi0, hnet, hpost]
    all_goals simp [createFlagsPayload, aget, hc, hi]
  · intro env a
    rfl
  · intro env a f tpl hj hp hwait
    simp [ScaleCluster.take_action, hj, hp, scaleFinish, hwait]

/-- Witness for C6 at concrete inputs: two positional delete arguments,
a flags-path create, a json-path scale and an update. -/
theorem C6_lookup_then_act_witness :
    DeleteCluster.take_action env0 ⟨["c1", "c2"], false⟩ =
      ((["c1", "c2"].map (fun c => [Call.lookup "clusters" (.str c),
          Call.deleteCluster (env0.clusterIdOf c)])).flatten, .ok ())
  ∧ (CreateCluster.take_action env0
      ⟨some "n", some "t", some "i", none, none, none, none,
       false, false, false, none, false⟩).1 =
      [Call.lookup "cluster_templates" (.str "t"), Call.lookup "images" (.str "i"),
       Call.createClusters (createFlagsPayload env0
         ⟨some "n", some "t", some "i", none, none, none, none,
          false, false, false, none, false⟩)]
  ∧ (UpdateCluster.take_action env0 ⟨"c", none, none, none, none⟩).1 =
      [Call.lookup "clusters" (.str "c"),
       Call.updateCluster (env0.clusterIdOf "c")
         (updateKwargs ⟨"c", none, none, none, none⟩)]
  ∧ (ScaleCluster.take_action envJson ⟨"c", none, some "f.json", false⟩).1 =
      [Call.lookup "clusters" (.str "c"),
       Call.scaleCluster (envJson.clusterOf (.str "c")).id
         (.obj [("name", .str "c"), ("neutron_management_network", .str "net-1"),
                ("plugin_name", .str "vanilla")])] :=
  ⟨C6_lookup_then_act.1 env0 ["c1", "c2"],
   (C6_lookup_then_act.2.1 env0 _ "n" "t" "i" rfl rfl (by decide) rfl (by decide)
      rfl (by decide) rfl rfl rfl).1,
   C6_lookup_then_act.2.2.1 env0 _,
   C6_lookup_then_act.2.2.2 envJson _ "f.json" _ rfl rfl rfl⟩

theorem actingCount_nil : actingCount [] = 0 := rfl

theorem actingCount_cons (c : Call) (t : Trace) :
    actingCount (c :: t) = actingCount t + (if isActingCall c then 1 else 0) := by
  by_cases h : isActingCall c <;> simp [actingCount, List.filter_cons, h]

theorem actingCount_append (t1 t2 : Trace) :
    actingCount (t1 ++ t2) = actingCount t1 + actingCount t2 := by
  simp [actingCount, List.filter_append]

theorem actingCount_lookups (ids : List Jval) :
    actingCount (ids.map (fun i => Call.lookup "clusters" i)) = 0 := by
  induction ids with
  | nil => rfl
  | cons i rest ih => simp [actingCount_cons, isActingCall, ih]

theorem actingCount_waitLoopMulti (env : Env) (dataId : Option Jval)
    (l : List ClusterRes) :
    actingCount (waitLoopMulti env dataId l).1 = 0 := by
  induction l with
  | nil => rfl
  | cons c rest ih =>
      cases hrec : waitLoopMulti env dataId rest with
      | mk t r =>
          have ih' : actingCount t = 0 := by simpa [hrec] using ih
          by_cases hw : env.waitStatus (.str c.id)
          · simp [waitLoopMulti, hw, hrec, actingCount_cons, isActingCall, ih']
          · cases dataId <;>
              simp [waitLoopMulti, hw, hrec, actingCount_cons, actingCount_nil,
                    isActingCall, ih']

theorem actingCount_createPost (env : Env) (a : CreateArgs) (data : Dict) (eff : Jval) :
    actingCount (createPost env a data eff).1 = 0 := by
  cases hc : countCond eff with
  | error e => simp [createPost, hc, actingCount_nil]
  | ok b =>
      cases b
      · by_cases hw : a.wait
        · cases hid : jindex data "id" with
          | error e => simp [createPost, hc, hid, hw, actingCount_nil]
          | ok idv =>
              by_cases hws : env.waitStatus idv <;>
                simp [createPost, hc, hid, hw, hws, actingCount_append,
                      actingCount_cons, actingCount_nil, isActingCall]
        · simp [createPost, hc, hw, actingCount_nil]
      · cases hcl : jindex data "clusters" with
        | error e => simp [createPost, hc, hcl, actingCount_nil]
        | ok v =>
            cases v with
            | arr ids =>
                by_cases hw : a.wait
                · cases hwl : waitLoopMulti env (aget data "id") (ids.map env.clusterOf) with
                  | mk tw r =>
                      have hnw : actingCount tw = 0 := by
                        simpa [hwl] using
                          actingCount_waitLoopMulti env (aget data "id")
                            (ids.map env.clusterOf)
                      cases r <;>
                        simp [createPost, hc, hcl, hw, hwl, actingCount_append,
                              actingCount_lookups, hnw]
                · simp [createPost, hc, hcl, hw, actingCount_lookups]
            | null => simp [createPost, hc, hcl, actingCount_nil]
            | bool b2 => simp [createPost, hc, hcl, actingCount_nil]
            | num n => simp [createPost, hc, hcl, actingCount_nil]
            | str s => simp [createPost, hc, hcl, actingCount_nil]
            | obj o => simp [createPost, hc, hcl, actingCount_nil]

theorem actingCount_deleteWaitPhase (env : Env) (ids : List String) :
    actingCount (deleteWaitPhase env ids) = 0 := by
  induction ids with
  | nil => rfl
  | cons cid rest ih =>
      by_cases hw : env.waitDelete cid <;>
        simp [deleteWaitPhase, hw, actingCount_append, actingCount_cons,
              actingCount_nil, isActingCall, ih]

theorem actingCount_deleteFlatten (env : Env) (cs : List String) :
    actingCount ((cs.map (fun c => [Call.lookup "clusters" (.str c),
        Call.deleteCluster (env.clusterIdOf c)])).flatten) = cs.length := by
  induction cs with
  | nil => rfl
  | cons c rest ih =>
      simp [actingCount_append, actingCount_cons, actingCount_nil, isActingCall, ih]

theorem actingCount_scaleLoop (env : Env) (cng : List String)
    (pairs : List (String × String)) :
    ∀ (adds resizes : List Dict),
      actingCount (scaleLoop env cng adds resizes pairs).1 = 0 := by
  induction pairs with
  | nil => intro adds resizes; rfl
  | cons p rest ih =>
      intro adds resizes
      obtain ⟨nm, cnt⟩ := p
      by_cases hm : (env.ngtOf nm).name ∈ cng
      · cases hint : pyInt cnt with
        | none =>
            simp [scaleLoop, hm, hint, actingCount_cons, actingCount_nil, isActingCall]
        | some k =>
            cases hrec : scaleLoop env cng adds
                (resizes ++ [mkResizeNg (env.ngtOf nm).name k]) rest with
            | mk t r =>
                have ih' : actingCount t = 0 := by
                  simpa [hrec] using
                    ih adds (resizes ++ [mkResizeNg (env.ngtOf nm).name k])
                simp [scaleLoop, hm, hint, hrec, actingCount_cons, isActingCall, ih']
      · cases hint : pyInt cnt with
        | none =>
            simp [scaleLoop, hm, hint, actingCount_cons, actingCount_nil, isActingCall]
        | some k =>
            cases hrec : scaleLoop env cng
                (adds ++ [mkAddNg (env.ngtOf nm).id (env.ngtOf nm).name k]) resizes rest with
            | mk t r =>
                have ih' : actingCount t = 0 := by
                  simpa [hrec] using
                    ih (adds ++ [mkAddNg (env.ngtOf nm).id (env.ngtOf nm).name k]) resizes
                simp [scaleLoop, hm, hint, hrec, actingCount_cons, isActingCall, ih']

theorem actingCount_scaleFinish (env : Env) (a : ScaleArgs) (c : ClusterRes)
    (t : Trace) (d : Dict) :
    actingCount (scaleFinish env a c t d).1 = actingCount t := by
  by_cases hw : a.wait
  · cases hid : jindex d "id" with
    | error e => simp [scaleFinish, hw, hid]
    | ok idv =>
        by_cases hws : env.waitStatus idv <;>
          simp [scaleFinish, hw, hid, hws, actingCount_append, actingCount_cons,
                actingCount_nil, isActingCall]
  · simp [scaleFinish, hw]

/-- Counterexample to claim C7 as stated: a DeleteCluster invocation with
two positional arguments performs two delete calls, not exactly one; and
a ShowCluster invocation performs zero client calls beyond its lookup,
because its record fetch is the lookup itself. -/
theorem C7_single_call_counterexample :
    actingCount (DeleteCluster.take_action env0 ⟨["c1", "c2"], false⟩).1 = 2
  ∧ actingCount (ShowCluster.take_action env0 ⟨"c1"⟩).1 = 0 :=
  ⟨rfl, rfl⟩

/-- Claim C7 as amended: each invocation makes exactly one acting client
call (create, update, scale, list) beyond the name-to-ID lookups, the
delegated polling and the re-fetch reads, except that DeleteCluster makes
exactly one delete call per positional cluster argument and ShowCluster
makes none beyond its lookup, which doubles as its record fetch. -/
theorem C7_acting_calls :
    (∀ (env : Env) (a : DeleteArgs),
        actingCount (DeleteCluster.take_action env a).1 = a.clusters.length)
  ∧ (∀ (env : Env) (a : CreateArgs) (f : String) (t0 : Dict),
        a.json = some f → env.jsonLoads (env.readFile f) = .ok (.obj t0) →
        actingCount (CreateCluster.take_action env a).1 = 1)
  ∧ (∀ (env : Env) (a : CreateArgs) (nm ct im : String),
        a.json = none → a.name = some nm → nm ≠ "" → a.cluster_template = some ct →
        ct ≠ "" → a.image = some im → im ≠ "" →
        actingCount (CreateCluster.take_action env a).1 = 1)
  ∧ (∀ (env : Env) (a : UpdateArgs),
        actingCount (UpdateCluster.take_action env a).1 = 1)
  ∧ (∀ (env : Env) (a : ScaleArgs) (f : String) (tpl : Jval),
        a.json = some f → env.jsonLoads (env.readFile f) = .ok tpl →
        actingCount (ScaleCluster.take_action env a).1 = 1)
  ∧ (∀ (env : Env) (a : ScaleArgs) (ngs : List String)
        (pairs : List (String × String)) (tl : Trace) (adds resizes : List Dict),
        a.json = none → a.node_groups = some ngs → scaleDict ngs = .ok pairs →
        scaleLoop env ((env.clusterOf (.str a.cluster)).node_groups.map
          (fun ng => ng.name)) [] [] pairs = (tl, .ok (adds, resizes)) →
        actingCount (ScaleCluster.take_action env a).1 = 1)
  ∧ (∀ (env : Env) (a : ListArgs),
        actingCount (ListClusters.take_action env a).1 = 1)
  ∧ (∀ (env : Env) (a : ShowArgs),
        actingCount (ShowCluster.take_action env a).1 = 0) := by
  refine ⟨?_, ?_, ?_, ?_, ?_, ?_, ?_, ?_⟩
  · intro env a
    by_cases hw : a.wait <;>
      simp [DeleteCluster.take_action, deletePhase_spec, hw, actingCount_append,
            actingCount_deleteWaitPhase, actingCount_deleteFlatten]
  · intro env a f t0 hj hp
    cases hpost : createPost env a (env.createResp (jsonTemplate t0))
        (jsonEffCount (jsonTemplate t0) a) with
    | mk t2 r =>
        have hta : CreateCluster.take_action env a =
            ([Call.createClusters (jsonTemplate t0)] ++ t2, r) := by
          simp [CreateCluster.take_action, createRequest, hj, hp, hpost]
        have h2 : actingCount t2 = 0 := by
          simpa [hpost] using
            actingCount_createPost env a (env.createResp (jsonTemplate t0))
              (jsonEffCount (jsonTemplate t0) a)
        rw [hta]
        simp [actingCount_append, actingCount_cons, actingCount_nil, isActingCall, h2]
  · intro env a nm ct im hj hn hn0 hc hc0 hi hi0
    cases hpost : createPost env a (env.createResp (createFlagsPayload env a))
        (optInt a.count) with
    | mk t2 r =>
        have h2 : actingCount t2 = 0 := by
          simpa [hpost] using
            actingCount_createPost env a (env.createResp (createFlagsPayload env a))
              (optInt a.count)
        by_cases hnet : strTruthy a.neutron_network <;>
        · have hta : (CreateCluster.take_action env a).1 =
              ([Call.lookup "cluster_templates" (.str (a.cluster_template.getD "")),
                Call.lookup "images" (.str (a.image.getD ""))] ++
               (if strTruthy a.neutron_network
                then [Call.networkFind (a.neutron_network.getD "")] else []) ++
               [Call.createClusters (createFlagsPayload env a)] ++ t2) := by
            simp [CreateCluster.take_action, createRequest, hj, hn, hc, hi,
                  strTruthy, hn0, hc0, hi0, hpost]
          rw [hta]
          simp [hnet, actingCount_append, actingCount_cons, actingCount_nil,
                isActingCall, h2]
  · intro env a
    rfl
  · intro env a f tpl hj hp
    have hta : ScaleCluster.take_action env a =
        scaleFinish env a (env.clusterOf (.str a.cluster))
          ([Call.lookup "clusters" (.str a.cluster)] ++
           [Call.scaleCluster (env.clusterOf (.str a.cluster)).id tpl])
          (env.scaleRespToDict (env.clusterOf (.str a.cluster)).id tpl) := by
      simp [ScaleCluster.take_action, hj, hp]
    rw [hta, actingCount_scaleFinish]
    simp [actingCount_append, actingCount_cons, actingCount_nil, isActingCall]
  · intro env a ngs pairs tl adds resizes hj hng hsd hloop
    have htl : actingCount tl = 0 := by
      simpa [hloop] using
        actingCount_scaleLoop env ((env.clusterOf (.str a.cluster)).node_groups.map
          (fun ng => ng.name)) pairs [] []
    have hta : ScaleCluster.take_action env a =
        scaleFinish env a (env.clusterOf (.str a.cluster))
          ([Call.lookup "clusters" (.str a.cluster)] ++ tl ++
           [Call.scaleCluster (env.clusterOf (.str a.cluster)).id
              (.obj (scaleObj adds resizes))])
          (env.scaleRespCluster (env.clusterOf (.str a.cluster)).id
            (.obj (scaleObj adds resizes))) := by
      simp [ScaleCluster.take_action, hj, hng, hsd, hloop]
    rw [hta, actingCount_scaleFinish]
    simp [actingCount_append, actingCount_cons, actingCount_nil, isActingCall, htl]
  · intro env a
    rfl
  · intro env a
    rfl

/-- Witness for the amended C7 at concrete inputs: three delete arguments
give three delete calls; json create, json scale, flags scale, update and
list each give exactly one acting call; show gives none. -/
theorem C7_acting_calls_witness :
    actingCount (DeleteCluster.take_action env0 ⟨["c1", "c2", "c3"], true⟩).1 = 3
  ∧ actingCount (CreateCluster.take_action envJson
      ⟨none, none, none, none, none, none, none, false, false, false,
       some "f.json", false⟩).1 = 1
  ∧ actingCount (CreateCluster.take_action env0
      ⟨some "n", some "t", some "i", none, none, none, none,
       false, false, false, none, false⟩).1 = 1
  ∧ actingCount (UpdateCluster.take_action env0 ⟨"c", none, none, none, none⟩).1 = 1
  ∧ actingCount (ScaleCluster.take_action envJson ⟨"c", none, some "f.json", true⟩).1 = 1
  ∧ actingCount (ScaleCluster.take_action env0 ⟨"c", some ["worker:3"], none, false⟩).1 = 1
  ∧ actingCount (ListClusters.take_action env0 ⟨false, none, none, none⟩).1 = 1
  ∧ actingCount (ShowCluster.take_action env0 ⟨"c"⟩).1 = 0 :=
  ⟨C7_acting_calls.1 env0 _,
   C7_acting_calls.2.1 envJson _ "f.json" _ rfl rfl,
   C7_acting_calls.2.2.1 env0 _ "n" "t" "i" rfl rfl (by decide) rfl (by decide)
     rfl (by decide),
   C7_acting_calls.2.2.2.1 env0 _,
   C7_acting_calls.2.2.2.2.1 envJson _ "f.json" _ rfl rfl,
   C7_acting_calls.2.2.2.2.2.1 env0 _ ["worker:3"] [("worker", "3")]
     [Call.lookup "node_group_templates" (.str "worker")] []
     [mkResizeNg "worker" 3] rfl rfl rfl rfl,
   C7_acting_calls.2.2.2.2.2.2.1 env0 _,
   C7_acting_calls.2.2.2.2.2.2.2 env0 _⟩

theorem namesToIds_go (l : List ClusterRes) :
    ∀ (d : Dict),
      (∀ c ∈ l, acontains d c.name = false) →
      (l.map ClusterRes.name).Nodup →
      l.foldl (fun d c => aset d c.name (Jval.str c.id)) d
        = d ++ l.map (fun c => (c.name, Jval.str c.id)) := by
  induction l with
  | nil =>
      intro d _ _
      simp
  | cons c rest ih =>
      intro d hd hn
      rw [List.map_cons] at hn
      have hnc := List.nodup_cons.mp hn
      simp only [List.foldl_cons]
      rw [aset_of_not_contains d c.name _ (hd c (by simp))]
      rw [ih (d ++ [(c.name, Jval.str c.id)]) ?_ hnc.2]
      · simp
      · intro c' hc'
        have h1 : acontains d c'.name = false := hd c' (by simp [hc'])
        have h2 : ¬ c.name = c'.name := by
          intro he
          exact hnc.1 (he ▸ List.mem_map_of_mem ClusterRes.name hc')
        simp [acontains_append, h1, acontains, h2]

theorem namesToIds_spec (l : List ClusterRes)
    (hn : (l.map ClusterRes.name).Nodup) :
    namesToIds l = l.map (fun c => (c.name, Jval.str c.id)) := by
  simpa [namesToIds] using namesToIds_go l [] (fun c _ => rfl) hn

theorem createPost_batch (env : Env) (a : CreateArgs) (data : Dict) (k : Int)
    (ids : List Jval) (hk : 1 < k) (hcl : aget data "clusters" = some (.arr ids))
    (hw : a.wait = false) :
    createPost env a data (.num k) =
      (ids.map (fun i => Call.lookup "clusters" i),
       .ok (namesToIds (ids.map env.clusterOf))) := by
  have hk0 : ¬ k = 0 := by omega
  simp [createPost, countCond, truthy, jgtOne, hk0, hk, jindex, hcl, hw, dict2columns]

theorem createPost_single (env : Env) (a : CreateArgs) (data : Dict) (eff : Jval)
    (heff : eff = .null ∨ eff = .num 1) (hw : a.wait = false) :
    createPost env a data eff = ([], formatPrepare env data) := by
  rcases heff with h | h <;> subst h <;>
    simp [createPost, countCond, truthy, jgtOne, hw]

/-- Claim C3: a count greater than one is treated as a batch.  On the
flags path and on the json path (count taken from the document), the
command resolves each id of the clusters list of the create response and
returns the mapping from each created cluster name to its id, one entry
per id (given the created names are distinct, as the generated batch
names are), without the single-record reshaping; with the count absent or
equal to one, the single-record display tail is returned instead. -/
theorem C3_batch_vs_single :
    (∀ (env : Env) (a : CreateArgs) (k : Int) (ids : List Jval),
      a.json = none → strTruthy a.name = true → strTruthy a.cluster_template = true →
      strTruthy a.image = true → a.count = some k → 1 < k → a.wait = false →
      aget (env.createResp (createFlagsPayload env a)) "clusters" = some (.arr ids) →
      ((ids.map env.clusterOf).map ClusterRes.name).Nodup →
      (CreateCluster.take_action env a).2 =
        .ok ((ids.map env.clusterOf).map (fun c => (c.name, Jval.str c.id))))
  ∧ (∀ (env : Env) (a : CreateArgs) (f : String) (t0 : Dict) (k : Int) (ids : List Jval),
      a.json = some f → env.jsonLoads (env.readFile f) = .ok (.obj t0) →
      acontains t0 "neutron_management_network" = false →
      aget t0 "count" = some (.num k) → 1 < k → a.wait = false →
      aget (env.createResp t0) "clusters" = some (.arr ids) →
      ((ids.map env.clusterOf).map ClusterRes.name).Nodup →
      (CreateCluster.take_action env a).2 =
        .ok ((ids.map env.clusterOf).map (fun c => (c.name, Jval.str c.id))))
  ∧ (∀ (env : Env) (a : CreateArgs),
      a.json = none → strTruthy a.name = true → strTruthy a.cluster_template = true →
      strTruthy a.image = true → (a.count = none ∨ a.count = some 1) → a.wait = false →
      (CreateCluster.take_action env a).2 =
        formatPrepare env (env.createResp (createFlagsPayload env a))) := by
  refine ⟨?_, ?_, ?_⟩
  · intro env a k ids hj hn hct hi hcount hk hw hcl hnodup
    have hpost := createPost_batch env a (env.createResp (createFlagsPayload env a))
      k ids hk hcl hw
    have hta : (CreateCluster.take_action env a).2 =
        .ok (namesToIds (ids.map env.clusterOf)) := by
      simp [CreateCluster.take_action, createRequest, hj, hn, hct, hi, hcount,
            optInt, hpost]
    rw [hta, namesToIds_spec _ hnodup]
  · intro env a f t0 k ids hj hp hnonet hcnt hk hw hcl hnodup
    have htmpl : jsonTemplate t0 = t0 := by simp [jsonTemplate, hnonet]
    have heff : jsonEffCount t0 a = .num k := by
      simp [jsonEffCount, hcnt]
    have hpost := createPost_batch env a (env.createResp t0) k ids hk hcl hw
    have hta : (CreateCluster.take_action env a).2 =
        .ok (namesToIds (ids.map env.clusterOf)) := by
      simp [CreateCluster.take_action, createRequest, hj, hp, htmpl, heff, hpost]
    rw [hta, namesToIds_spec _ hnodup]
  · intro env a hj hn hct hi hcount hw
    have hpost := createPost_single env a (env.createResp (createFlagsPayload env a))
      (optInt a.count) ?_ hw
    · simp [CreateCluster.take_action, createRequest, hj, hn, hct, hi, hpost]
    · rcases hcount with h | h <;> simp [h, optInt]

/-- Witness for C3: a flags-path batch create with count two returns the
name-to-id mapping of the two created clusters; the same invocation with
the count flag absent returns the reshaped single record. -/
theorem C3_batch_vs_single_witness :
    (CreateCluster.take_action envMultiFlags
      ⟨some "n", some "t", some "i", none, none, none, some 2,
       false, false, false, none, false⟩).2 =
      .ok [("a-nm", .str "a-id"), ("b-nm", .str "b-id")]
  ∧ (CreateCluster.take_action env0
      ⟨some "n", some "t", some "i", none, none, none, none,
       false, false, false, none, false⟩).2 =
      formatPrepare env0 (env0.createResp (createFlagsPayload env0
        ⟨some "n", some "t", some "i", none, none, none, none,
         false, false, false, none, false⟩)) :=
  ⟨C3_batch_vs_single.1 envMultiFlags _ 2 [.str "a", .str "b"]
      rfl rfl rfl rfl rfl (by decide) rfl rfl (by decide),
   C3_batch_vs_single.2.2 env0 _ rfl rfl rfl rfl (Or.inl rfl) rfl⟩

theorem strElems_map (aa : List String) : strElems (aa.map Jval.str) = .ok aa := by
  induction aa with
  | nil => rfl
  | cons s rest ih =>
      simp [strElems, ih, Except.map]

theorem fmtNgParts_map (ngs : List (String × Int)) :
    fmtNgParts (ngs.map (fun p => .obj [("name", .str p.1), ("count", .num p.2)])) =
      .ok (ngs.map (fun p => p.1 ++ ":" ++ toString p.2)) := by
  induction ngs with
  | nil => rfl
  | cons p rest ih =>
      simp only [List.map_cons, fmtNgParts, aget, ih]
      rfl

/-- Claim C4: the displayed record is reshaped against the fixed
whitelist.  For any record holding a hadoop_version, a default_image_id,
a node_groups list and an anti_affinity list of strings, the formatted
record renames hadoop_version to version and default_image_id to image
(the old keys are gone), replaces node_groups by the comma-separated
name:count rendering (second conjunct: in list order), formats
anti_affinity through the external list formatter, and prepare_data then
produces exactly the CLUSTER_FIELDS whitelist when every whitelisted
field is present (third conjunct); ShowCluster and UpdateCluster display
exactly this pipeline applied to their fetched record (last conjuncts),
as do ScaleCluster and single-cluster CreateCluster through the same
formatPrepare tail. -/
theorem C4_display_whitelist :
    (∀ (env : Env) (d : Dict) (hv di : Jval) (ngl : List Jval) (aa : List String) (s : String),
      aget d "hadoop_version" = some hv →
      aget d "default_image_id" = some di →
      aget d "node_groups" = some (.arr ngl) →
      aget d "anti_affinity" = some (.arr (aa.map Jval.str)) →
      _format_node_groups_list ngl = .ok s →
      ∃ d', _format_cluster_output env.fmtList d = .ok d'
        ∧ aget d' "version" = some hv
        ∧ aget d' "image" = some di
        ∧ acontains d' "hadoop_version" = false
        ∧ acontains d' "default_image_id" = false
        ∧ aget d' "node_groups" = some (.str s)
        ∧ aget d' "anti_affinity" = some (.str (env.fmtList aa)))
  ∧ (∀ (ngs : List (String × Int)),
      _format_node_groups_list (ngs.map (fun p =>
          .obj [("name", .str p.1), ("count", .num p.2)])) =
        .ok (String.intercalate ", " (ngs.map (fun p => p.1 ++ ":" ++ toString p.2))))
  ∧ (∀ (d : Dict), (∀ f ∈ CLUSTER_FIELDS, acontains d f = true) →
      (prepare_data d CLUSTER_FIELDS).map Prod.fst = CLUSTER_FIELDS)
  ∧ (∀ (env : Env) (a : ShowArgs),
      ShowCluster.take_action env a =
        ([Call.lookup "clusters" (.str a.cluster)],
         formatPrepare env (env.clusterOf (.str a.cluster)).dict))
  ∧ (∀ (env : Env) (a : UpdateArgs),
      (UpdateCluster.take_action env a).2 =
        formatPrepare env (env.updateResp (env.clusterIdOf a.cluster) (updateKwargs a))) := by
  refine ⟨?_, ?_, ?_, ?_, ?_⟩
  · intro env d hv di ngl aa s h1 h2 h3 h4 h5
    have e2 : aget (aset (aremove d "hadoop_version") "version" hv)
        "default_image_id" = some di := by
      rw [aget_aset_ne _ _ _ _ (by decide), aget_aremove_ne _ _ _ (by decide)]
      exact h2
    have e3 : aget (aset (aremove (aset (aremove d "hadoop_version") "version" hv)
        "default_image_id") "image" di) "node_groups" = some (.arr ngl) := by
      rw [aget_aset_ne _ _ _ _ (by decide), aget_aremove_ne _ _ _ (by decide),
          aget_aset_ne _ _ _ _ (by decide), aget_aremove_ne _ _ _ (by decide)]
      exact h3
    have e4 : aget (aset (aset (aremove (aset (aremove d "hadoop_version")
        "version" hv) "default_image_id") "image" di) "node_groups" (.str s))
        "anti_affinity" = some (.arr (aa.map Jval.str)) := by
      rw [aget_aset_ne _ _ _ _ (by decide), aget_aset_ne _ _ _ _ (by decide),
          aget_aremove_ne _ _ _ (by decide), aget_aset_ne _ _ _ _ (by decide),
          aget_aremove_ne _ _ _ (by decide)]
      exact h4
    refine ⟨aset (aset (aset (aremove (aset (aremove d "hadoop_version") "version" hv)
        "default_image_id") "image" di) "node_groups" (.str s)) "anti_affinity"
        (.str (env.fmtList aa)), ?_, ?_, ?_, ?_, ?_, ?_, ?_⟩
    · simp [_format_cluster_output, jindex, h1, e2, e3, e4, h5,
            asStrList, strElems_map]
    · rw [aget_aset_ne _ _ _ _ (by decide), aget_aset_ne _ _ _ _ (by decide),
          aget_aset_ne _ _ _ _ (by decide), aget_aremove_ne _ _ _ (by decide),
          aget_aset_self]
    · rw [aget_aset_ne _ _ _ _ (by decide), aget_aset_ne _ _ _ _ (by decide),
          aget_aset_self]
    · rw [acontains_aset_ne _ _ _ _ (by decide), acontains_aset_ne _ _ _ _ (by decide),
          acontains_aset_ne _ _ _ _ (by decide), acontains_aremove_ne _ _ _ (by decide),
          acontains_aset_ne _ _ _ _ (by decide)]
      exact acontains_aremove_self d "hadoop_version"
    · rw [acontains_aset_ne _ _ _ _ (by decide), acontains_aset_ne _ _ _ _ (by decide),
          acontains_aset_ne _ _ _ _ (by decide)]
      exact acontains_aremove_self _ "default_image_id"
    · rw [aget_aset_ne _ _ _ _ (by decide), aget_aset_self]
    · rw [aget_aset_self]
  · intro ngs
    simp [_format_node_groups_list, fmtNgParts_map, Except.map]
  · intro d h
    exact prepare_data_keys d CLUSTER_FIELDS h
  · intro env a
    rfl
  · intro env a
    rfl

/-- Witness for C4: the concrete record rec0 is reshaped as claimed, the
node-groups rendering at a concrete two-element list, and prepare_data on
the concrete formatted record produces exactly CLUSTER_FIELDS. -/
theorem C4_display_whitelist_witness :
    (∃ d', _format_cluster_output env0.fmtList rec0 = .ok d'
        ∧ aget d' "version" = some (.str "2.7.1")
        ∧ aget d' "image" = some (.str "img-1")
        ∧ acontains d' "hadoop_version" = false
        ∧ acontains d' "default_image_id" = false
        ∧ aget d' "node_groups" = some (.str "worker:2, master:1")
        ∧ aget d' "anti_affinity" = some (.str (env0.fmtList ["datanode"])))
  ∧ _format_node_groups_list [.obj [("name", .str "worker"), ("count", .num 2)],
      .obj [("name", .str "master"), ("count", .num 1)]] = .ok "worker:2, master:1"
  ∧ (prepare_data rec0Formatted CLUSTER_FIELDS).map Prod.fst = CLUSTER_FIELDS :=
  ⟨C4_display_whitelist.1 env0 rec0 (.str "2.7.1") (.str "img-1")
      [.obj [("name", .str "worker"), ("count", .num 2)],
       .obj [("name", .str "master"), ("count", .num 1)]]
      ["datanode"] "worker:2, master:1" rfl rfl rfl rfl rfl,
   C4_display_whitelist.2.1 [("worker", 2), ("master", 1)],
   C4_display_whitelist.2.2.1 rec0Formatted (by decide)⟩

theorem find?_or_append {β : Type} (p : β → Bool) (l1 l2 : List β) :
    List.find? p (l1 ++ l2) =
      match List.find? p l1 with
      | some x => some x
      | none => List.find? p l2 := by
  induction l1 with
  | nil => simp
  | cons x rest ih => by_cases h : p x <;> simp [List.find?_cons, h, ih]

theorem aget_foldl_aset (l : List (String × String)) :
    ∀ (d : List (String × String)) (n : String),
      aget (l.foldl (fun d p => aset d p.1 p.2) d) n =
        match l.reverse.find? (fun p => p.1 = n) with
        | some p => some p.2
        | none => aget d n := by
  induction l with
  | nil =>
      intro d n
      simp
  | cons p rest ih =>
      intro d n
      simp only [List.foldl_cons, List.reverse_cons]
      rw [ih, find?_or_append]
      cases hf : rest.reverse.find? (fun q => q.1 = n) with
      | some q => rfl
      | none =>
          by_cases hp : p.1 = n <;> simp [List.find?_cons, hp, aget_aset]

theorem pairsOfSplit_ok (ngs : List String) :
    ∀ (l : List (String × String)), pairsOfSplit ngs = .ok l →
      l = ngs.filterMap splitPair := by
  induction ngs with
  | nil =>
      intro l h
      cases h
      rfl
  | cons s rest ih =>
      intro l h
      rw [pairsOfSplit] at h
      cases hs : splitColon1 s with
      | nil => rw [hs] at h; cases h
      | cons x t =>
          cases t with
          | nil => rw [hs] at h; cases h
          | cons y t2 =>
              cases t2 with
              | nil =>
                  rw [hs] at h
                  cases hr : pairsOfSplit rest with
                  | error e => rw [hr] at h; cases h
                  | ok l' =>
                      rw [hr] at h
                      cases h
                      simp [List.filterMap_cons, splitPair, hs, ih l' hr]
              | cons z t3 => rw [hs] at h; cases h

theorem scaleLoop_ok (env : Env) (cng : List String) (pairs : List (String × String)) :
    ∀ (adds resizes : List Dict),
      (∀ p ∈ pairs, ∃ k : Int, pyInt p.2 = some k) →
      scaleLoop env cng adds resizes pairs =
        (pairs.map (fun p => Call.lookup "node_group_templates" (.str p.1)),
         .ok (adds ++ (pairs.filter (fun p =>
                 !(cng.contains (env.ngtOf p.1).name))).map (fun p =>
                 mkAddNg (env.ngtOf p.1).id (env.ngtOf p.1).name ((pyInt p.2).getD 0)),
              resizes ++ (pairs.filter (fun p =>
                 cng.contains (env.ngtOf p.1).name)).map (fun p =>
                 mkResizeNg (env.ngtOf p.1).name ((pyInt p.2).getD 0)))) := by
  induction pairs with
  | nil =>
      intro adds resizes _
      simp [scaleLoop]
  | cons p rest ih =>
      intro adds resizes hnum
      obtain ⟨nm, cnt⟩ := p
      obtain ⟨k, hk⟩ := hnum (nm, cnt) (by simp)
      have hnum' : ∀ q ∈ rest, ∃ k : Int, pyInt q.2 = some k :=
        fun q hq => hnum q (by simp [hq])
      by_cases hm : cng.contains (env.ngtOf nm).name = true
      · have hm2 : (env.ngtOf nm).name ∈ cng := by simpa using hm
        have hrec := ih adds (resizes ++ [mkResizeNg (env.ngtOf nm).name k]) hnum'
        rw [scaleLoop]
        simp [hm, hm2, hk, hrec, List.filter_cons]
      · have hm' : cng.contains (env.ngtOf nm).name = false := by
          simpa using hm
        have hm2 : ¬ ((env.ngtOf nm).name ∈ cng) := by simpa using hm'
        have hrec := ih (adds ++ [mkAddNg (env.ngtOf nm).id (env.ngtOf nm).name k])
          resizes hnum'
        rw [scaleLoop]
        simp [hm', hm2, hk, hrec, List.filter_cons]

/-- Claim C9: in the flags branch of ScaleCluster, the node-groups pairs
are collected into a python dict keyed by name, so a repeated name keeps
only the count of its last occurrence (first conjunct: the dict value of
each name is the count of the last flag occurrence naming it); each
resolved group goes to resize_node_groups when its resolved name is among
the existing node groups of the cluster and to add_node_groups otherwise
(second conjunct); an empty list is omitted from the request while a
nonempty one is kept (third conjunct); and the scale call receives
exactly the request built this way (fourth conjunct). -/
theorem C9_scale_request :
    (∀ (ngs : List String) (pairs : List (String × String)),
      scaleDict ngs = .ok pairs →
      ∀ n, aget pairs n = lastColonCount ngs n)
  ∧ (∀ (env : Env) (cng : List String) (pairs : List (String × String)),
      (∀ p ∈ pairs, ∃ k : Int, pyInt p.2 = some k) →
      scaleLoop env cng [] [] pairs =
        (pairs.map (fun p => Call.lookup "node_group_templates" (.str p.1)),
         .ok ((pairs.filter (fun p =>
                 !(cng.contains (env.ngtOf p.1).name))).map (fun p =>
                 mkAddNg (env.ngtOf p.1).id (env.ngtOf p.1).name ((pyInt p.2).getD 0)),
              (pairs.filter (fun p =>
                 cng.contains (env.ngtOf p.1).name)).map (fun p =>
                 mkResizeNg (env.ngtOf p.1).name ((pyInt p.2).getD 0)))))
  ∧ (∀ (adds resizes : List Dict),
      acontains (scaleObj adds resizes) "add_node_groups" = !adds.isEmpty
      ∧ acontains (scaleObj adds resizes) "resize_node_groups" = !resizes.isEmpty
      ∧ (adds ≠ [] →
          aget (scaleObj adds resizes) "add_node_groups" =
            some (.arr (adds.map Jval.obj)))
      ∧ (resizes ≠ [] →
          aget (scaleObj adds resizes) "resize_node_groups" =
            some (.arr (resizes.map Jval.obj))))
  ∧ (∀ (env : Env) (a : ScaleArgs) (ngs : List String)
        (pairs : List (String × String)) (tl : Trace) (adds resizes : List Dict),
      a.json = none → a.node_groups = some ngs → scaleDict ngs = .ok pairs →
      scaleLoop env ((env.clusterOf (.str a.cluster)).node_groups.map
        (fun ng => ng.name)) [] [] pairs = (tl, .ok (adds, resizes)) →
      a.wait = false →
      ScaleCluster.take_action env a =
        ([Call.lookup "clusters" (.str a.cluster)] ++ tl ++
          [Call.scaleCluster (env.clusterOf (.str a.cluster)).id
            (.obj (scaleObj adds resizes))],
         formatPrepare env (env.scaleRespCluster (env.clusterOf (.str a.cluster)).id
           (.obj (scaleObj adds resizes))))) := by
  refine ⟨?_, ?_, ?_, ?_⟩
  · intro ngs pairs h n
    cases hps : pairsOfSplit ngs with
    | error e =>
        rw [scaleDict, hps] at h
        cases h
    | ok l =>
        rw [scaleDict, hps] at h
        have hpairs : pairs = l.foldl (fun d p => aset d p.1 p.2) [] := by
          cases h
          rfl
        rw [hpairs, aget_foldl_aset, pairsOfSplit_ok ngs l hps, lastColonCount]
        rw [List.filterMap_reverse]
        cases hf : ((ngs.filterMap splitPair).reverse.find? (fun p => p.1 = n)) <;>
          simp [hf, aget]
  · intro env cng pairs hnum
    simpa using scaleLoop_ok env cng pairs [] [] hnum
  · intro adds resizes
    refine ⟨?_, ?_, ?_, ?_⟩
    · by_cases ha : adds.isEmpty <;> by_cases hr : resizes.isEmpty <;>
        simp [scaleObj, ha, hr, acontains]
    · by_cases ha : adds.isEmpty <;> by_cases hr : resizes.isEmpty <;>
        simp [scaleObj, ha, hr, acontains]
    · intro hne
      have ha : adds.isEmpty = false := by
        cases adds with
        | nil => cases hne rfl
        | cons x xs => rfl
      by_cases hr : resizes.isEmpty <;> simp [scaleObj, ha, hr, aget]
    · intro hne
      have hr : resizes.isEmpty = false := by
        cases resizes with
        | nil => cases hne rfl
        | cons x xs => rfl
      by_cases ha : adds.isEmpty <;> simp [scaleObj, ha, hr, aget]
  · intro env a ngs pairs tl adds resizes hj hng hsd hloop hw
    simp [ScaleCluster.take_action, hj, hng, hsd, hloop, scaleFinish, hw]

/-- Witness for C9: with node-groups worker:1 extra:2 worker:3 on a
cluster whose only existing node group is worker, the dict keeps the last
worker count, worker is resized to three, extra is added, and both lists
are present in the request. -/
theorem C9_scale_request_witness :
    aget [("worker", "3"), ("extra", "2")] "worker" = some "3"
  ∧ scaleDict ["worker:1", "extra:2", "worker:3"] = .ok [("worker", "3"), ("extra", "2")]
  ∧ scaleLoop env0 ["worker"] [] [] [("worker", "3"), ("extra", "2")] =
      ([Call.lookup "node_group_templates" (.str "worker"),
        Call.lookup "node_group_templates" (.str "extra")],
       .ok ([mkAddNg "extra-ngtid" "extra" 2], [mkResizeNg "worker" 3]))
  ∧ acontains (scaleObj [mkAddNg "extra-ngtid" "extra" 2] [mkResizeNg "worker" 3])
      "add_node_groups" = true
  ∧ acontains (scaleObj [mkAddNg "extra-ngtid" "extra" 2] []) "resize_node_groups" = false :=
  ⟨(C9_scale_request.1 ["worker:1", "extra:2", "worker:3"]
      [("worker", "3"), ("extra", "2")] rfl "worker").trans rfl,
   rfl,
   (C9_scale_request.2.1 env0 ["worker"] [("worker", "3"), ("extra", "2")]
      (by
        intro p hp
        simp only [List.mem_cons, List.not_mem_nil, or_false] at hp
        rcases hp with rfl | rfl
        · exact ⟨3, rfl⟩
        · exact ⟨2, rfl⟩)).trans rfl,
   ((C9_scale_request.2.2.1 [mkAddNg "extra-ngtid" "extra" 2]
      [mkResizeNg "worker" 3]).1).trans rfl,
   ((C9_scale_request.2.2.1 [mkAddNg "extra-ngtid" "extra" 2] []).2.1).trans rfl⟩

end Sahara
